import Mathlib

/-!
Verification development for the report generator `generate_html.py`.

The program reads markdown test-report files, extracts a record of fields
per file with regular-expression searches (`extract_test_info`), and renders
one HTML detail page per record plus one index page
(`generate_test_html`, `generate_index_html`, orchestrated by `main`).

The embedding below models text as `String` / `List Char`.  The Python
regular expressions used by the source are hand-compiled to explicit
scanners with the exact leftmost / lazy / greedy semantics of `re.search`
and `re.finditer` (justifications are given at each definition).  Python
floats are modelled as exact rationals; the external `json.loads` and
`markdown.markdown` library calls are modelled as oracle parameters
returning `Option` (with `none` standing for a raised exception), since
their internals are not part of this repository.  Character classes `\w`
and `\d` are modelled at ASCII granularity (`Char.isAlphanum`,
`Char.isDigit`).
-/

namespace Agadah

/-- Character class of Python `\w` (word character), ASCII granularity. -/
def wordChar (c : Char) : Bool := c.isAlphanum || c == '_'

/-- Character class of the source pattern `[\d.]` (digit or dot). -/
def digitDot (c : Char) : Bool := c.isDigit || c == '.'

/-- Whitespace set of Python `str.strip()` (ASCII part). -/
def isPyWS (c : Char) : Bool :=
  c == ' ' || c == '\t' || c == '\n' || c == '\r' || c == '\x0b' || c == '\x0c'

/-- The literal `pat` occurs in `s` starting at index `i`. -/
def litAt (pat s : List Char) (i : Nat) : Bool := pat.isPrefixOf (s.drop i)

/-- Length of the maximal run of characters satisfying `p` from index `i`
(the greedy semantics of `class+` / `class*` in the source patterns). -/
def runLen (p : Char → Bool) (s : List Char) (i : Nat) : Nat :=
  ((s.drop i).takeWhile p).length

/-- Contiguous slice of `s`: `len` characters starting at index `a`. -/
def slice (s : List Char) (a len : Nat) : List Char := (s.drop a).take len

/-- Fuelled linear search used to realise the leftmost-match rule of the
Python `re` engine. -/
def firstIdxAux (p : Nat → Bool) : Nat → Nat → Option Nat
  | 0, _ => none
  | fuel + 1, i => if p i then some i else firstIdxAux p (fuel) (i + 1)

/-- Least index `j` with `i ≤ j < bound` such that `p j`. -/
def firstIdx (p : Nat → Bool) (i bound : Nat) : Option Nat :=
  firstIdxAux p (bound - i) i

/-- One match of the step pattern
`STEP: (.+?)\n.*?Duration: ([\d.]+)s.*?Result: (\w+)` (compiled with
`re.DOTALL`): the three captured groups, plus the span endpoints used by
the `re.finditer` loop. -/
structure RawMatch where
  start : Nat
  name : List Char
  durStr : List Char
  status : List Char
  stop : Nat
deriving DecidableEq

/-- Valid occurrence of `Duration: ([\d.]+)s` at index `q`: the literal,
then a non-empty greedy `[\d.]` run, then `s`.  Greedy backtracking inside
`[\d.]+` never helps here, because a shortened run would have to be
followed by `s`, yet every character inside the maximal run is a digit or
a dot. -/
def durOk (s : List Char) (q : Nat) : Bool :=
  litAt (("Duration: ").data) s q && decide (1 ≤ runLen digitDot s (q + 10)) &&
    (s.getD (q + 10 + runLen digitDot s (q + 10)) ' ' == 's')

/-- Valid occurrence of `Result: (\w+)` at index `u`. -/
def resOk (s : List Char) (u : Nat) : Bool :=
  litAt (("Result: ").data) s u && decide (1 ≤ runLen wordChar s (u + 8))

/-- Attempt of the full step pattern anchored at index `i`, with the lazy
quantifier semantics of the Python engine: `(.+?)\n` takes the shortest
non-empty prefix ending at a newline, and each `.*?` jumps to the earliest
valid occurrence of the literal that follows it.  Outer backtracking (a
later newline, or a later `Duration:`/`Result:` occurrence) can never
rescue a failed attempt, because every later choice strictly shrinks the
search space of the remaining lazy sub-patterns, so the minimal choices
tried here are exhaustive. -/
def matchStepAt (s : List Char) (i : Nat) : Option RawMatch :=
  if litAt (("STEP: ").data) s i then
    (firstIdx (fun j => s.getD j ' ' == '\n') (i + 7) s.length).bind (fun j =>
      (firstIdx (durOk s) (j + 1) s.length).bind (fun q =>
        (firstIdx (resOk s) (q + 11 + runLen digitDot s (q + 10)) s.length).map (fun u =>
          { start := i
            name := slice s (i + 6) (j - (i + 6))
            durStr := slice s (q + 10) (runLen digitDot s (q + 10))
            status := slice s (u + 8) (runLen wordChar s (u + 8))
            stop := u + 8 + runLen wordChar s (u + 8) })))
  else none

/-- Leftmost match of the step pattern starting at or after `pos`
(`re.finditer` restarts its scan here after each reported match). -/
def firstMatchFrom (s : List Char) (pos : Nat) : Option RawMatch :=
  (firstIdx (fun i => (matchStepAt s i).isSome) pos s.length).bind (matchStepAt s)

/-- Fuelled loop of `re.finditer`: report the leftmost match, resume at its
end.  Every match is non-empty, so `s.length + 1` units of fuel suffice. -/
def scanStepsAux (s : List Char) : Nat → Nat → List RawMatch
  | 0, _ => []
  | fuel + 1, pos =>
    match firstMatchFrom s pos with
    | none => []
    | some m => m :: scanStepsAux s (fuel) m.stop

/-- All matches of the step pattern, in document order, as produced by
`re.finditer(step_pattern, md_content, re.DOTALL)`. -/
def scanSteps (s : List Char) : List RawMatch := scanStepsAux s (s.length + 1) 0

/-- Numeric value of a digit string. -/
def digitsVal (ds : List Char) : Nat :=
  ds.foldl (fun a c => 10 * a + (c.toNat - 48)) 0

/-- Python `float()` on a token matched by `[\d.]+`: defined exactly when
the token contains at least one digit and at most one dot (otherwise
`float` raises `ValueError`), yielding the exact rational value. -/
def parseFloatQ (l : List Char) : Option ℚ :=
  if (!l.isEmpty) && l.all digitDot && decide (l.count ('.') ≤ 1) && l.any Char.isDigit then
    some ((digitsVal (l.takeWhile (fun c => c != '.')) : ℚ) +
      (digitsVal ((l.dropWhile (fun c => c != '.')).drop 1) : ℚ) /
        ((10 : ℚ) ^ ((l.dropWhile (fun c => c != '.')).drop 1).length))
  else none

/-- Error-propagating list traversal: the Python `for` loop over matches,
which aborts the whole extraction on the first `float` failure. -/
def mapME (f : α → Except String β) : List α → Except String (List β)
  | [] => .ok []
  | a :: as =>
    match f a with
    | .error e => .error e
    | .ok b => (mapME f as).map (fun bs => b :: bs)

/-- Greedy `(\w+)` run following the title literal at occurrence `i`. -/
def titleRun (s : List Char) (i : Nat) : Nat := runLen wordChar s (i + 19)

/-- Valid occurrence of `# E2E Test Report: (\w+)` at index `i`. -/
def titleOk (s : List Char) (i : Nat) : Bool :=
  litAt (("# E2E Test Report: ").data) s i && decide (1 ≤ titleRun s i)

/-- Result of `re.search(r'# E2E Test Report: (\w+)', md_content)`: the
group captured at the leftmost valid occurrence. -/
def searchTitle (s : List Char) : Option (List Char) :=
  (firstIdx (titleOk s) 0 s.length).map (fun i => slice s (i + 19) (titleRun s i))

/-- End of the lazy `(.+?)` group of `\| model \| (.+?) \|` started at
occurrence `i`: the earliest ` |` whose preceding content is non-empty and
newline-free (`.` does not match a newline in this pattern). -/
def modelEnd (s : List Char) (i : Nat) : Option Nat :=
  let nl := (firstIdx (fun j => s.getD j ' ' == '\n') (i + 10) s.length).getD s.length
  firstIdx (fun j => litAt ((" |").data) s j) (i + 11) (nl + 1)

/-- Valid occurrence of `\| model \| (.+?) \|` at index `i`. -/
def modelOk (s : List Char) (i : Nat) : Bool :=
  litAt (("| model | ").data) s i && (modelEnd s i).isSome

/-- Result of `re.search(r'\| model \| (.+?) \|', md_content)`. -/
def searchModel (s : List Char) : Option (List Char) :=
  (firstIdx (modelOk s) 0 s.length).bind
    (fun i => (modelEnd s i).map (fun j => slice s (i + 10) (j - (i + 10))))

/-- Greedy `(.+)` rest-of-line run after the user-request literal. -/
def reqRun (s : List Char) (i : Nat) : Nat := runLen (fun c => c != '\n') s (i + 18)

/-- Valid occurrence of `\*\*User Request:\*\* (.+)` at index `i`. -/
def reqOk (s : List Char) (i : Nat) : Bool :=
  litAt (("**User Request:** ").data) s i && decide (1 ≤ reqRun s i)

/-- Result of `re.search(r'\*\*User Request:\*\* (.+)', md_content)`. -/
def searchUserRequest (s : List Char) : Option (List Char) :=
  (firstIdx (reqOk s) 0 s.length).map (fun i => slice s (i + 18) (reqRun s i))

/-- End index of the lazy `{[\s\S]*?}` group of the JSON-block pattern
started at occurrence `i`: the earliest `}` that is followed by a fenced
close ``` on its own line, per `r'```json\n({[\s\S]*?})\n```'`. -/
def jsonEnd (s : List Char) (i : Nat) : Option Nat :=
  firstIdx (fun e => (s.getD e ' ' == '}') && litAt (("\n```").data) s (e + 1))
    (i + 9) s.length

/-- Valid occurrence of the JSON-block pattern at index `i`. -/
def jsonOk (s : List Char) (i : Nat) : Bool :=
  litAt (("```json\n").data) s i && (s.getD (i + 8) ' ' == '{') && (jsonEnd s i).isSome

/-- Result of `re.search(r'```json\n({[\s\S]*?})\n```', md_content)`:
the captured group, braces included. -/
def searchJson (s : List Char) : Option (List Char) :=
  (firstIdx (jsonOk s) 0 s.length).bind
    (fun i => (jsonEnd s i).map (fun e => slice s (i + 8) (e - (i + 8) + 1)))

/-- End of the lazy `([\s\S]+?)` group of the fenced final-output pattern
`## Final Output\n\n```markdown\n([\s\S]+?)```` started at occurrence `i`:
the earliest closing ``` after at least one content character. -/
def fencedEnd (s : List Char) (i : Nat) : Option Nat :=
  firstIdx (fun e => litAt (("\x60\x60\x60").data) s e) (i + 30) s.length

/-- Valid occurrence of the fenced final-output pattern at index `i`. -/
def fencedOk (s : List Char) (i : Nat) : Bool :=
  litAt (("## Final Output\n\n\x60\x60\x60markdown\n").data) s i && (fencedEnd s i).isSome

/-- Result of the first final-output search (the fenced-block shape). -/
def searchFenced (s : List Char) : Option (List Char) :=
  (firstIdx (fencedOk s) 0 s.length).bind
    (fun i => (fencedEnd s i).map (fun e => slice s (i + 29) (e - (i + 29))))

/-- End of the lazy `([\s\S]+?)` group of the fallback final-output
pattern `## Final Output\n\n([\s\S]+?)(?=\n## |$)`: the earliest position,
after at least one content character, where the lookahead matches — a
`\n## ` heading, the end of the string, or just before a terminating
newline (Python `$` without `re.MULTILINE`). -/
def fbEnd (s : List Char) (i : Nat) : Option Nat :=
  firstIdx (fun e =>
      litAt (("\n## ").data) s e || decide (e = s.length) ||
        (decide (e + 1 = s.length) && (s.getD e ' ' == '\n')))
    (i + 18) (s.length + 1)

/-- Valid occurrence of the fallback final-output pattern at index `i`. -/
def fbOk (s : List Char) (i : Nat) : Bool :=
  litAt (("## Final Output\n\n").data) s i && (fbEnd s i).isSome

/-- Result of the fallback final-output search. -/
def searchFallback (s : List Char) : Option (List Char) :=
  (firstIdx (fbOk s) 0 s.length).bind
    (fun i => (fbEnd s i).map (fun e => slice s (i + 17) (e - (i + 17))))

/-- List-level Python `str.strip()`: drop leading and trailing whitespace. -/
def pyStripL (l : List Char) : List Char :=
  ((l.dropWhile isPyWS).reverse.dropWhile isPyWS).reverse

/-- Python `str.strip()` on strings. -/
def pyStrip (s : String) : String := String.mk (pyStripL s.data)

/-- The `final_output` field: the fenced shape is preferred, the fallback
shape is tried only when the fenced search fails, and the captured group
is stripped in both cases (source lines 416–425). -/
def finalOutput (s : List Char) : Option String :=
  match searchFenced s with
  | some c => some (pyStrip (String.mk c))
  | none => (searchFallback s).map (fun c => pyStrip (String.mk c))

/-- One timed execution step: `{'name': ..., 'duration': float(...),
'status': ...}`. -/
structure Step where
  name : String
  duration : ℚ
  status : String
deriving DecidableEq

/-- The structured detail object parsed from the JSON block.  Only the
named fields read by the renderer are modelled; each defaults like the
corresponding `dict.get` default. -/
structure ActivityDetails where
  activity_type : String := ""
  age_group : String := ""
  duration_minutes : Int := 0
  main_topic : String := ""
  main_values : List String := []
  closing_message_theme : String := ""
deriving DecidableEq

/-- One extracted record (the `info` dict of `extract_test_info`, plus the
`filename` and `status` keys added by `main`). -/
structure Record where
  name : Option String := none
  name_heb : Option String := none
  model : Option String := none
  user_request : Option String := none
  activity_details : Option ActivityDetails := none
  final_output : Option String := none
  steps : List Step := []
  total_duration : ℚ := 0
  filename : String := ""
  status : String := ""
deriving DecidableEq

/-- Hebrew translations for test names (`TEST_NAMES_HEB`). -/
def TEST_NAMES_HEB : List (String × String) := [
  (("Chanukah_Light_Miracle"), ("חנוכה - נס האור")),
  (("Honesty_Truth_Teen"), ("אמת ויושר לנוער")),
  (("Talmud_Wisdom_Stories"), ("סיפורי חכמה מהתלמוד")),
  (("Environment_Jewish_View"), ("איכות הסביבה - מבט יהודי")),
  (("Teamwork_Games"), ("משחקי עבודת צוות")),
  (("Purim_Hidden_Revealed"), ("פורים - הנסתר והנגלה")),
  (("Sukkot_Joy_Hospitality"), ("סוכות - שמחה והכנסת אורחים")),
  (("Kibud_Av_VaEm"), ("כיבוד אב ואם")),
  (("Jewish_Heroes_Stories"), ("סיפורי גבורה יהודית")),
  (("Leadership_Challenge"), ("אתגר מנהיגות"))]

/-- Activity type translations (`ACTIVITY_TYPES_HEB`). -/
def ACTIVITY_TYPES_HEB : List (String × String) := [
  (("religious_holiday"), ("חג דתי")),
  (("values_education"), ("חינוך ערכי")),
  (("story_session"), ("מפגש סיפורים")),
  (("discussion"), ("דיון")),
  (("game_based"), ("משחקים")),
  (("combined"), ("משולב"))]

/-- Age group translations (`AGE_GROUPS_HEB`). -/
def AGE_GROUPS_HEB : List (String × String) := [
  (("middle"), ("בינוני (10-13)")),
  (("teen"), ("נוער (14-16)"))]

/-- Python `dict.get(k, d)` on a static key/value table. -/
def tableGet (t : List (String × String)) (k d : String) : String :=
  match t.find? (fun p => p.1 == k) with
  | some p => p.2
  | none => d

/-- Conversion of one raw match to a `Step`: `float(match.group(2))`
either yields the duration or raises `ValueError`. -/
def toStepE (m : RawMatch) : Except String Step :=
  match parseFloatQ m.durStr with
  | some d => .ok { name := String.mk m.name, duration := d, status := String.mk m.status }
  | none => .error ("ValueError")

/-- The extractor `extract_test_info`, with the `json.loads` call supplied
as the oracle `pj` (returning `none` where the library call would raise,
which the bare `except` of the source absorbs as an absent field).  The
result is `Except` because the `float` conversion inside the step loop can
raise, and no handler in the source catches it. -/
def extract_test_info (pj : String → Option ActivityDetails) (md : String) :
    Except String Record :=
  match mapME toStepE (scanSteps md.data) with
  | .error e => .error e
  | .ok steps =>
    .ok {
      name := (searchTitle md.data).map String.mk
      name_heb := (searchTitle md.data).map
        (fun n => tableGet TEST_NAMES_HEB (String.mk n) (String.mk n))
      model := (searchModel md.data).map String.mk
      user_request := (searchUserRequest md.data).map String.mk
      activity_details := (searchJson md.data).bind (fun j => pj (String.mk j))
      final_output := finalOutput md.data
      steps := steps
      total_duration := if steps.isEmpty then 0 else (steps.map Step.duration).sum
      filename := ""
      status := "" }


/-!
Literal segments of the page templates.  `tmplA`–`tmplD` are the four
constant parts of `HTML_TEMPLATE` around its `{title}`, `{content}` and
`{date}` placeholders (with the `{{`/`}}` escapes of `str.format`
unescaped); the remaining groups are the constant parts of the f-strings
of `generate_index_html` and `generate_test_html`, in source order, around
their interpolation holes.
-/

def tmplA : String := "<!DOCTYPE html>\n<html lang=\"he\" dir=\"rtl\">\n<head>\n    <meta charset=\"UTF-8\">\n    <meta name=\"viewport\" content=\"width=device-width, initial-scale=1.0\">\n    <title>"

def tmplB : String := "</title>\n    <link href=\"https://fonts.googleapis.com/css2?family=Heebo:wght@300;400;500;600;700&display=swap\" rel=\"stylesheet\">\n    <style>\n        :root \x7b\n            --primary: #2563eb;\n            --primary-dark: #1d4ed8;\n            --secondary: #64748b;\n            --success: #22c55e;\n            --danger: #ef4444;\n            --warning: #f59e0b;\n            --bg: #f8fafc;\n            --card-bg: #ffffff;\n            --text: #1e293b;\n            --text-muted: #64748b;\n            --border: #e2e8f0;\n        \x7d\n        \n        * \x7b\n            margin: 0;\n            padding: 0;\n            box-sizing: border-box;\n        \x7d\n        \n        body \x7b\n            font-family: \x27Heebo\x27, sans-serif;\n            background: var(--bg);\n            color: var(--text);\n            line-height: 1.7;\n            direction: rtl;\n        \x7d\n        \n        .container \x7b\n            max-width: 1200px;\n            margin: 0 auto;\n            padding: 2rem;\n        \x7d\n        \n        header \x7b\n            background: linear-gradient(135deg, var(--primary) 0%, var(--primary-dark) 100%);\n            color: white;\n            padding: 3rem 2rem;\n            margin-bottom: 2rem;\n            border-radius: 0 0 2rem 2rem;\n            box-shadow: 0 4px 20px rgba(37, 99, 235, 0.3);\n        \x7d\n        \n        header h1 \x7b\n            font-size: 2.5rem;\n            font-weight: 700;\n            margin-bottom: 0.5rem;\n        \x7d\n        \n        header p \x7b\n            opacity: 0.9;\n            font-size: 1.1rem;\n        \x7d\n        \n        .breadcrumb \x7b\n            margin-bottom: 1.5rem;\n        \x7d\n        \n        .breadcrumb a \x7b\n            color: var(--primary);\n            text-decoration: none;\n            font-weight: 500;\n        \x7d\n        \n        .breadcrumb a:hover \x7b\n            text-decoration: underline;\n        \x7d\n        \n        .card \x7b\n            background: var(--card-bg);\n            border-radius: 1rem;\n            padding: 2rem;\n            margin-bottom: 1.5rem;\n            box-shadow: 0 2px 10px rgba(0,0,0,0.05);\n            border: 1px solid var(--border);\n        \x7d\n        \n        .card h2 \x7b\n            color: var(--primary);\n            font-size: 1.5rem;\n            margin-bottom: 1rem;\n            padding-bottom: 0.5rem;\n            border-bottom: 2px solid var(--border);\n        \x7d\n        \n        .card h3 \x7b\n            color: var(--text);\n            font-size: 1.2rem;\n            margin: 1.5rem 0 0.75rem;\n        \x7d\n        \n        .stats-grid \x7b\n            display: grid;\n            grid-template-columns: repeat(auto-fit, minmax(200px, 1fr));\n            gap: 1rem;\n            margin-bottom: 2rem;\n        \x7d\n        \n        .stat-card \x7b\n            background: var(--card-bg);\n            border-radius: 1rem;\n            padding: 1.5rem;\n            text-align: center;\n            border: 1px solid var(--border);\n            transition: transform 0.2s, box-shadow 0.2s;\n        \x7d\n        \n        .stat-card:hover \x7b\n            transform: translateY(-2px);\n            box-shadow: 0 4px 15px rgba(0,0,0,0.1);\n        \x7d\n        \n        .stat-value \x7b\n            font-size: 2rem;\n            font-weight: 700;\n            color: var(--primary);\n        \x7d\n        \n        .stat-label \x7b\n            color: var(--text-muted);\n            font-size: 0.9rem;\n            margin-top: 0.25rem;\n        \x7d\n        \n        .test-list \x7b\n            display: grid;\n            gap: 1rem;\n        \x7d\n        \n        .test-item \x7b\n            display: flex;\n            align-items: center;\n            padding: 1.25rem;\n            background: var(--card-bg);\n            border-radius: 0.75rem;\n            border: 1px solid var(--border);\n            text-decoration: none;\n            color: var(--text);\n            transition: all 0.2s;\n        \x7d\n        \n        .test-item:hover \x7b\n            border-color: var(--primary);\n            box-shadow: 0 4px 15px rgba(37, 99, 235, 0.15);\n            transform: translateX(-4px);\n        \x7d\n        \n        .test-status \x7b\n            width: 40px;\n            height: 40px;\n            border-radius: 50%;\n            display: flex;\n            align-items: center;\n            justify-content: center;\n            margin-left: 1rem;\n            font-size: 1.25rem;\n        \x7d\n        \n        .test-status.pass \x7b\n            background: #dcfce7;\n            color: var(--success);\n        \x7d\n        \n        .test-status.fail \x7b\n            background: #fee2e2;\n            color: var(--danger);\n        \x7d\n        \n        .test-info \x7b\n            flex: 1;\n        \x7d\n        \n        .test-name \x7b\n            font-weight: 600;\n            font-size: 1.1rem;\n            margin-bottom: 0.25rem;\n        \x7d\n        \n        .test-meta \x7b\n            color: var(--text-muted);\n            font-size: 0.85rem;\n        \x7d\n        \n        .test-duration \x7b\n            color: var(--secondary);\n            font-weight: 500;\n        \x7d\n        \n        .badge \x7b\n            display: inline-block;\n            padding: 0.25rem 0.75rem;\n            border-radius: 9999px;\n            font-size: 0.8rem;\n            font-weight: 500;\n            margin-left: 0.5rem;\n        \x7d\n        \n        .badge-primary \x7b\n            background: #dbeafe;\n            color: var(--primary);\n        \x7d\n        \n        .badge-success \x7b\n            background: #dcfce7;\n            color: var(--success);\n        \x7d\n        \n        .badge-danger \x7b\n            background: #fee2e2;\n            color: var(--danger);\n        \x7d\n        \n        table \x7b\n            width: 100%;\n            border-collapse: collapse;\n            margin: 1rem 0;\n        \x7d\n        \n        th, td \x7b\n            padding: 0.75rem 1rem;\n            text-align: right;\n            border-bottom: 1px solid var(--border);\n        \x7d\n        \n        th \x7b\n            background: var(--bg);\n            font-weight: 600;\n            color: var(--text-muted);\n        \x7d\n        \n        tr:hover \x7b\n            background: var(--bg);\n        \x7d\n        \n        .content-section \x7b\n            margin: 1.5rem 0;\n            padding: 1.5rem;\n            background: var(--bg);\n            border-radius: 0.75rem;\n            border-right: 4px solid var(--primary);\n        \x7d\n        \n        .content-section h4 \x7b\n            color: var(--primary);\n            margin-bottom: 0.75rem;\n        \x7d\n        \n        pre \x7b\n            background: #1e293b;\n            color: #e2e8f0;\n            padding: 1rem;\n            border-radius: 0.5rem;\n            overflow-x: auto;\n            direction: ltr;\n            text-align: left;\n            font-size: 0.85rem;\n            line-height: 1.5;\n        \x7d\n        \n        code \x7b\n            font-family: \x27Fira Code\x27, monospace;\n        \x7d\n        \n        .activity-content \x7b\n            line-height: 1.8;\n        \x7d\n        \n        .activity-content h1, .activity-content h2, .activity-content h3 \x7b\n            color: var(--primary);\n            margin: 1.5rem 0 1rem;\n        \x7d\n        \n        .activity-content ul, .activity-content ol \x7b\n            margin: 1rem 0;\n            padding-right: 2rem;\n        \x7d\n        \n        .activity-content li \x7b\n            margin: 0.5rem 0;\n        \x7d\n        \n        .activity-content blockquote \x7b\n            border-right: 4px solid var(--primary);\n            padding: 1rem 1.5rem;\n            margin: 1rem 0;\n            background: var(--bg);\n            border-radius: 0 0.5rem 0.5rem 0;\n            font-style: italic;\n        \x7d\n        \n        .activity-content hr \x7b\n            border: none;\n            border-top: 2px solid var(--border);\n            margin: 2rem 0;\n        \x7d\n        \n        footer \x7b\n            text-align: center;\n            padding: 2rem;\n            color: var(--text-muted);\n            border-top: 1px solid var(--border);\n            margin-top: 3rem;\n        \x7d\n        \n        @media (max-width: 768px) \x7b\n            .container \x7b\n                padding: 1rem;\n            \x7d\n            \n            header \x7b\n                padding: 2rem 1rem;\n            \x7d\n            \n            header h1 \x7b\n                font-size: 1.75rem;\n            \x7d\n            \n            .stats-grid \x7b\n                grid-template-columns: repeat(2, 1fr);\n            \x7d\n        \x7d\n    </style>\n</head>\n<body>\n    "

def tmplC : String := "\n    <footer>\n        <p>נוצר על ידי Agadah-Bot | מודל: Claude Opus 4.5 | "

def tmplD : String := "</p>\n    </footer>\n</body>\n</html>\n"

def statsA : String := "\n    <div class=\"stats-grid\">\n        <div class=\"stat-card\">\n            <div class=\"stat-value\">"

def statsB : String := "</div>\n            <div class=\"stat-label\">סה\"כ בדיקות</div>\n        </div>\n        <div class=\"stat-card\">\n            <div class=\"stat-value\" style=\"color: var(--success)\">"

def statsC : String := "</div>\n            <div class=\"stat-label\">עברו בהצלחה</div>\n        </div>\n        <div class=\"stat-card\">\n            <div class=\"stat-value\" style=\"color: var(--danger)\">"

def statsD : String := "</div>\n            <div class=\"stat-label\">נכשלו</div>\n        </div>\n        <div class=\"stat-card\">\n            <div class=\"stat-value\">"

def statsE : String := "</div>\n            <div class=\"stat-label\">דקות סה\"כ</div>\n        </div>\n    </div>\n    "

def itemA : String := "\n        <a href=\""

def itemB : String := ".html\" class=\"test-item\">\n            <div class=\"test-status "

def itemC : String := "\">"

def itemD : String := "</div>\n            <div class=\"test-info\">\n                <div class=\"test-name\">"

def itemE : String := "</div>\n                <div class=\"test-meta\">\n                    <span class=\"badge badge-primary\">"

def itemF : String := "</span>\n                    <span class=\"badge badge-primary\">"

def itemG : String := "</span>\n                    <span class=\"badge badge-primary\">"

def itemH : String := " דקות</span>\n                </div>\n            </div>\n            <div class=\"test-duration\">"

def itemI : String := " דק\x27</div>\n        </a>\n        "

def idxA : String := "\n    <header>\n        <div class=\"container\">\n            <h1>🕎 דוחות בדיקות Agadah-Bot</h1>\n            <p>בדיקות קצה-לקצה ליצירת פעילויות חינוכיות | Claude Opus 4.5</p>\n        </div>\n    </header>\n    <div class=\"container\">\n        <div class=\"card\">\n            <h2>📊 סיכום כללי</h2>\n            "

def idxB : String := "\n        </div>\n        \n        <div class=\"card\">\n            <h2>📋 רשימת בדיקות</h2>\n            "

def idxC : String := "\n        </div>\n    </div>\n    "

def stepsHead : String := "\n    <table>\n        <thead>\n            <tr>\n                <th>שלב</th>\n                <th>משך (שניות)</th>\n                <th>סטטוס</th>\n            </tr>\n        </thead>\n        <tbody>\n    "

def rowA : String := "\n            <tr>\n                <td>"

def rowB : String := "</td>\n                <td>"

def rowC : String := "</td>\n                <td><span class=\"badge "

def rowD : String := "\">"

def rowE : String := "</span></td>\n            </tr>\n        "

def tcA : String := "\n    <header>\n        <div class=\"container\">\n            <h1>"

def tcB : String := "</h1>\n            <p>"

def tcC : String := "</p>\n        </div>\n    </header>\n    <div class=\"container\">\n        <div class=\"breadcrumb\">\n            <a href=\"index.html\">← חזרה לרשימת הבדיקות</a>\n        </div>\n        \n        <div class=\"card\">\n            <h2>📋 פרטי הפעילות</h2>\n            <table>\n                <tr><th>סוג פעילות</th><td>"

def tcD : String := "</td></tr>\n                <tr><th>קבוצת גיל</th><td>"

def tcE : String := "</td></tr>\n                <tr><th>משך</th><td>"

def tcF : String := " דקות</td></tr>\n                <tr><th>נושא מרכזי</th><td>"

def tcG : String := "</td></tr>\n                <tr><th>ערכים</th><td>"

def tcH : String := "</td></tr>\n                <tr><th>מסר סיום</th><td>"

def tcI : String := "</td></tr>\n            </table>\n        </div>\n        \n        <div class=\"card\">\n            <h2>⏱️ שלבי הביצוע</h2>\n            "

def tcJ : String := "\n            <p style=\"margin-top: 1rem; color: var(--text-muted);\">\n                <strong>סה\"כ זמן ביצוע:</strong> "

def tcK : String := " דקות\n            </p>\n        </div>\n        \n        <div class=\"card\">\n            <h2>📄 תוכנית הפעילות</h2>\n            <div class=\"activity-content\">\n                "

def tcL : String := "\n            </div>\n        </div>\n    </div>\n    "

/-- Fixed-point rendering of a non-negative rational with one decimal,
modelling Python `f'{x:.1f}'` (ties in this model round half away from
zero; the claims proved below do not depend on tie behaviour). -/
def fmtAbs (q : ℚ) : String :=
  toString ((round (q * 10)).toNat / 10) ++ (".") ++
    String.singleton (Nat.digitChar ((round (q * 10)).toNat % 10))

/-- Fixed-point rendering with one decimal for any sign. -/
def formatFix1 (q : ℚ) : String :=
  if q < 0 then ("-") ++ fmtAbs (-q) else fmtAbs q

/-- The shared page shell: `HTML_TEMPLATE.format(title=..., content=...,
date=...)` as pure string substitution. -/
def HTML_TEMPLATE (title content date : String) : String :=
  tmplA ++ title ++ tmplB ++ content ++ tmplC ++ date ++ tmplD

/-- Display name of a record:
`test.get('name_heb', test.get('name', 'Unknown'))`. -/
def nameDisplay (t : Record) : String :=
  (t.name_heb).getD ((t.name).getD ("Unknown"))

/-- Index statistic `total = len(tests)`. -/
def indexTotal (tests : List Record) : Nat := tests.length

/-- Index statistic `passed = sum(1 for t in tests if t.get('status') == 'PASS')`. -/
def indexPassed (tests : List Record) : Nat :=
  tests.countP (fun t => t.status == "PASS")

/-- Index statistic `failed = total - passed`. -/
def indexFailed (tests : List Record) : Nat := indexTotal tests - indexPassed tests

/-- Index statistic `total_time = sum(t.get('total_duration', 0) for t in tests)`. -/
def indexTotalTime (tests : List Record) : ℚ :=
  (tests.map Record.total_duration).sum

/-- The total time displayed on the index page, in minutes:
the value `total_time/60` interpolated as `{total_time/60:.1f}`. -/
def indexTotalMinutes (tests : List Record) : ℚ := indexTotalTime tests / 60

/-- One list row of the index page (the f-string appended to `tests_html`
for one test). -/
def testItemHtml (t : Record) : String :=
  let status_class := if t.status == "PASS" then ("pass") else ("fail")
  let status_icon := if t.status == "PASS" then ("✓") else ("✗")
  let ad := (t.activity_details).getD {}
  let activity_type_heb := tableGet ACTIVITY_TYPES_HEB ad.activity_type ad.activity_type
  let age_group_heb := tableGet AGE_GROUPS_HEB ad.age_group ad.age_group
  itemA ++ t.filename ++ itemB ++ status_class ++ itemC ++ status_icon ++ itemD ++
    nameDisplay t ++ itemE ++ activity_type_heb ++ itemF ++ age_group_heb ++ itemG ++
    toString ad.duration_minutes ++ itemH ++ formatFix1 (t.total_duration / 60) ++ itemI

/-- The main index page (`generate_index_html`), as a function of the
record list and of the `datetime.now().strftime('%d/%m/%Y')` value taken
at generation time. -/
def generate_index_html (tests : List Record) (date : String) : String :=
  let stats_html := statsA ++ toString (indexTotal tests) ++ statsB ++
    toString (indexPassed tests) ++ statsC ++ toString (indexFailed tests) ++ statsD ++
    formatFix1 (indexTotalMinutes tests) ++ statsE
  let tests_html := ("<div class=\"test-list\">") ++
    String.join (tests.map testItemHtml) ++ ("</div>")
  HTML_TEMPLATE ("דוחות בדיקות Agadah-Bot")
    (idxA ++ stats_html ++ idxB ++ tests_html ++ idxC) date

/-- Badge CSS class of one step row:
`'badge-success' if step['status'] == 'SUCCESS' else 'badge-danger'`. -/
def status_badge (st : String) : String :=
  if st == "SUCCESS" then ("badge-success") else ("badge-danger")

/-- Localised badge text of one step row:
`'הצלחה' if step['status'] == 'SUCCESS' else 'כשלון'`. -/
def status_text (st : String) : String :=
  if st == "SUCCESS" then ("הצלחה") else ("כשלון")

/-- One row of the steps table on a detail page. -/
def stepRowHtml (st : Step) : String :=
  rowA ++ st.name ++ rowB ++ formatFix1 st.duration ++ rowC ++
    status_badge st.status ++ rowD ++ status_text st.status ++ rowE

/-- The rendered final-output block of a detail page: Markdown rendering
via the oracle `mdR` when the field is non-empty (falling back to a
verbatim `<pre>` block when the library call raises), and a fixed
placeholder paragraph when the field is unset or empty
(`test.get('final_output', '')` is falsy). -/
def finalOutputHtml (mdR : String → Option String) (t : Record) : String :=
  let fo := (t.final_output).getD ("")
  if fo != "" then
    match mdR fo with
    | some h => h
    | none => ("<pre>") ++ fo ++ ("</pre>")
  else ("<p>לא נמצא פלט סופי</p>")

/-- One detail page (`generate_test_html`); `mdContent` is passed by the
source but never used.  `date` is the generation-time date as in
`generate_index_html`. -/
def generate_test_html (mdR : String → Option String) (t : Record)
    (mdContent : String) (date : String) : String :=
  let steps_html := stepsHead ++ String.join (t.steps.map stepRowHtml) ++
    ("</tbody></table>")
  let ad := (t.activity_details).getD {}
  let activity_type_heb := tableGet ACTIVITY_TYPES_HEB ad.activity_type ("")
  let age_group_heb := tableGet AGE_GROUPS_HEB ad.age_group ("")
  HTML_TEMPLATE (nameDisplay t)
    (tcA ++ nameDisplay t ++ tcB ++ (t.user_request).getD ("") ++ tcC ++
      activity_type_heb ++ tcD ++ age_group_heb ++ tcE ++
      toString ad.duration_minutes ++ tcF ++ ad.main_topic ++ tcG ++
      String.intercalate (", ") ad.main_values ++ tcH ++
      ad.closing_message_theme ++ tcI ++ steps_html ++ tcJ ++
      formatFix1 (t.total_duration / 60) ++ tcK ++
      finalOutputHtml mdR t ++ tcL) date

/-- Derived status of one input file (source line 638):
`'PASS' if len(md_content) > 10000 else 'FAIL'`, where `len` is the
character length of the decoded text. -/
def statusOf (md : String) : String :=
  if 10000 < md.length then ("PASS") else ("FAIL")

/-- Per-file processing of `main`: extraction, then the `filename` and
size-derived `status` keys. -/
def processFile (pj : String → Option ActivityDetails) (stem md : String) :
    Except String Record :=
  (extract_test_info pj md).map (fun r => { r with filename := stem, status := statusOf md })

/-- The whole pipeline of `main` on an already-sorted list of
`(filename stem, raw text)` pairs: one `(output name, detail page)` pair
per input, plus the index page.  The filesystem walk, the directory
creation and the progress printing of `main` sit outside the model. -/
def runPipeline (pj : String → Option ActivityDetails)
    (mdR : String → Option String) (files : List (String × String))
    (date : String) : Except String (List (String × String) × String) :=
  match mapME (fun f => (processFile pj f.1 f.2).map
      (fun r => (r, (f.1 ++ (".html"), generate_test_html mdR r f.2 date)))) files with
  | .error e => .error e
  | .ok results =>
    .ok (results.map Prod.snd, generate_index_html (results.map Prod.fst) date)

/-- Trivial `json.loads` oracle used to instantiate theorems at concrete
inputs. -/
def pjNone : String → Option ActivityDetails := fun _ => none

/-- Trivial `markdown.markdown` oracle used to instantiate theorems at
concrete inputs. -/
def mdNone : String → Option String := fun _ => none

/-- Record extracted from a concrete input under the trivial JSON oracle
(used to instantiate theorems whose hypothesis is a successful
extraction). -/
def extractedRec (md : String) : Record :=
  ((extract_test_info pjNone md).toOption).getD
    (Record.mk none none none none none none [] 0 ("") (""))

/-- Shape predicate: the string ends in a decimal point followed by
exactly one digit. -/
def oneDecimal (s : String) : Prop :=
  ∃ t d, s = t ++ (".") ++ String.singleton d ∧ d.isDigit = true

/-- Shape predicate: the string has no leading and no trailing whitespace
character. -/
def noEdgeWS (t : String) : Prop :=
  (∀ c, t.data.head? = some c → isPyWS c = false) ∧
  (∀ c, t.data.getLast? = some c → isPyWS c = false)

/-! Helper lemmas. -/

theorem firstIdxAux_some {p : Nat → Bool} :
    ∀ {fuel i j : Nat}, firstIdxAux p fuel i = some j → i ≤ j ∧ p j = true := by
  intro fuel
  induction fuel with
  | zero => intro i j h; simp [firstIdxAux] at h
  | succ n ih =>
    intro i j h
    rw [firstIdxAux] at h
    by_cases hp : p i
    · rw [if_pos hp] at h
      cases h
      exact ⟨Nat.le_refl _, hp⟩
    · rw [if_neg hp] at h
      have := ih h
      exact ⟨by omega, this.2⟩

theorem firstIdx_some {p : Nat → Bool} {i bound j : Nat}
    (h : firstIdx p i bound = some j) : i ≤ j ∧ p j = true :=
  firstIdxAux_some h

theorem matchStepAt_some {s : List Char} {i : Nat} {m : RawMatch}
    (h : matchStepAt s i = some m) : m.start = i ∧ i < m.stop := by
  unfold matchStepAt at h
  by_cases hl : litAt (("STEP: ").data) s i
  · rw [if_pos hl] at h
    obtain ⟨j, hj, h⟩ := Option.bind_eq_some.mp h
    obtain ⟨q, hq, h⟩ := Option.bind_eq_some.mp h
    obtain ⟨u, hu, h⟩ := Option.map_eq_some'.mp h
    have h1 := (firstIdx_some hj).1
    have h2 := (firstIdx_some hq).1
    have h3 := (firstIdx_some hu).1
    rw [← h]
    exact ⟨rfl, by simp only []; omega⟩
  · rw [if_neg hl] at h; cases h

theorem firstMatchFrom_some {s : List Char} {pos : Nat} {m : RawMatch}
    (h : firstMatchFrom s pos = some m) :
    pos ≤ m.start ∧ matchStepAt s m.start = some m ∧ m.start < m.stop := by
  unfold firstMatchFrom at h
  obtain ⟨i, hi, hm⟩ := Option.bind_eq_some.mp h
  have h1 := (firstIdx_some hi).1
  have h2 := matchStepAt_some hm
  refine ⟨?_, ?_, ?_⟩
  · rw [h2.1]; exact h1
  · rw [h2.1]; exact hm
  · rw [h2.1]; exact h2.2

theorem scanStepsAux_sound (s : List Char) :
    ∀ fuel pos,
      List.Chain' (fun a b => a.stop ≤ b.start) (scanStepsAux s fuel pos) ∧
      ∀ m ∈ scanStepsAux s fuel pos,
        pos ≤ m.start ∧ matchStepAt s m.start = some m ∧ m.start < m.stop := by
  intro fuel
  induction fuel with
  | zero => intro pos; simp [scanStepsAux]
  | succ n ih =>
    intro pos
    cases hfm : firstMatchFrom s pos with
    | none => simp [scanStepsAux, hfm]
    | some m =>
      have hspec := firstMatchFrom_some hfm
      have ihm := ih m.stop
      constructor
      · simp only [scanStepsAux, hfm]
        refine List.chain'_cons'.mpr ⟨?_, ihm.1⟩
        intro y hy
        exact (ihm.2 y (List.mem_of_mem_head? hy)).1
      · intro x hx
        simp only [scanStepsAux, hfm, List.mem_cons] at hx
        rcases hx with rfl | hx
        · exact ⟨hspec.1, hspec.2.1, hspec.2.2⟩
        · have hms := ihm.2 x hx
          exact ⟨by have := hspec.1; have := hspec.2.2; omega, hms.2.1, hms.2.2⟩

theorem scanSteps_sound (s : List Char) :
    List.Chain' (fun a b => a.stop ≤ b.start) (scanSteps s) ∧
    ∀ m ∈ scanSteps s, matchStepAt s m.start = some m ∧ m.start < m.stop := by
  have h := scanStepsAux_sound s (s.length + 1) 0
  exact ⟨h.1, fun m hm => ⟨(h.2 m hm).2.1, (h.2 m hm).2.2⟩⟩

theorem mapME_ok {f : α → Except String β} :
    ∀ {l : List α} {l' : List β}, mapME f l = .ok l' →
      List.Forall₂ (fun a b => f a = .ok b) l l' := by
  intro l
  induction l with
  | nil =>
    intro l' h
    simp [mapME] at h
    subst h
    exact List.Forall₂.nil
  | cons a as ih =>
    intro l' h
    rw [mapME] at h
    cases hf : f a with
    | error e => rw [hf] at h; cases h
    | ok b =>
      rw [hf] at h
      cases hr : mapME f as with
      | error e => rw [hr] at h; cases h
      | ok bs =>
        rw [hr] at h
        simp only [Except.map] at h
        cases h
        exact List.Forall₂.cons hf (ih hr)

theorem extract_fields {pj : String → Option ActivityDetails} {md : String}
    {r : Record} (h : extract_test_info pj md = .ok r) :
    mapME toStepE (scanSteps md.data) = .ok r.steps ∧
    r.total_duration =
      (if r.steps.isEmpty then 0 else (r.steps.map Step.duration).sum) ∧
    r.name = (searchTitle md.data).map String.mk ∧
    r.name_heb = (searchTitle md.data).map
      (fun n => tableGet TEST_NAMES_HEB (String.mk n) (String.mk n)) ∧
    r.final_output = finalOutput md.data := by
  unfold extract_test_info at h
  cases hm : mapME toStepE (scanSteps md.data) with
  | error e => rw [hm] at h; cases h
  | ok steps =>
    rw [hm] at h
    cases h
    exact ⟨rfl, rfl, rfl, rfl, rfl⟩

theorem head?_dropWhile {p : Char → Bool} :
    ∀ {l : List Char} {c : Char}, (l.dropWhile p).head? = some c → p c = false := by
  intro l
  induction l with
  | nil => intro c h; simp [List.dropWhile] at h
  | cons a as ih =>
    intro c h
    by_cases hp : p a
    · rw [List.dropWhile_cons_of_pos hp] at h
      exact ih h
    · rw [List.dropWhile_cons_of_neg hp] at h
      cases h
      exact Bool.of_not_eq_true hp

theorem pyStripL_noWS (l : List Char) :
    (∀ c, (pyStripL l).head? = some c → isPyWS c = false) ∧
    (∀ c, (pyStripL l).getLast? = some c → isPyWS c = false) := by
  constructor
  · intro c h
    rw [pyStripL, List.head?_reverse] at h
    obtain ⟨t, ht⟩ :=
      (List.dropWhile_suffix isPyWS :
        (l.dropWhile isPyWS).reverse.dropWhile isPyWS <:+ (l.dropWhile isPyWS).reverse)
    have hne : (l.dropWhile isPyWS).reverse.dropWhile isPyWS ≠ [] := by
      intro hx; rw [hx] at h; cases h
    have h3 : (l.dropWhile isPyWS).head? = some c := by
      rw [← List.getLast?_reverse, ← ht, List.getLast?_append_of_ne_nil t hne]
      exact h
    exact head?_dropWhile h3
  · intro c h
    rw [pyStripL, List.getLast?_reverse] at h
    exact head?_dropWhile h

theorem digitChar_isDigit {m : Nat} (h : m < 10) : (Nat.digitChar m).isDigit = true := by
  interval_cases m <;> decide

theorem fmtAbs_oneDecimal (q : ℚ) : oneDecimal (fmtAbs q) :=
  ⟨toString ((round (q * 10)).toNat / 10), Nat.digitChar ((round (q * 10)).toNat % 10),
    rfl, digitChar_isDigit (Nat.mod_lt _ (by norm_num))⟩

theorem formatFix1_oneDecimal (q : ℚ) : oneDecimal (formatFix1 q) := by
  unfold formatFix1
  by_cases hq : q < 0
  · rw [if_pos hq]
    obtain ⟨t, d, ht, hd⟩ := fmtAbs_oneDecimal (-q)
    refine ⟨("-") ++ t, d, ?_, hd⟩
    rw [ht]
    simp [String.append_assoc]
  · rw [if_neg hq]
    exact fmtAbs_oneDecimal q

/-! Claim theorems. -/

/-- C1: for every input file, the Record's derived status is `"PASS"` if
and only if the source file's text length exceeds the fixed 10000
threshold (`len(md_content) > 10000`), and `"FAIL"` otherwise.  In the
source, `len` counts characters of the decoded text; the embedding
measures the same quantity via `String.length`. -/
theorem claim_C1 (pj : String → Option ActivityDetails) (stem md : String)
    (r : Record) (h : processFile pj stem md = .ok r) :
    (r.status = ("PASS") ↔ 10000 < md.length) ∧
    (r.status = ("FAIL") ↔ ¬ 10000 < md.length) := by
  have hs : r.status = statusOf md := by
    unfold processFile at h
    cases he : extract_test_info pj md with
    | error e => rw [he] at h; cases h
    | ok r0 =>
      rw [he] at h
      simp only [Except.map] at h
      cases h
      rfl
  rw [hs]
  unfold statusOf
  by_cases h10 : 10000 < md.length
  · rw [if_pos h10]
    exact ⟨⟨fun _ => h10, fun _ => rfl⟩,
      ⟨fun hf => absurd hf (by decide), fun hn => absurd h10 hn⟩⟩
  · rw [if_neg h10]
    exact ⟨⟨fun hf => absurd hf (by decide), fun hl => absurd hl h10⟩,
      ⟨fun _ => h10, fun _ => rfl⟩⟩

/-- Witness for C1 at the one-character input `"x"` with stem `"t"`. -/
theorem claim_C1_witness :
    ((Record.mk none none none none none none [] 0 ("t") ("FAIL")).status = ("PASS") ↔
      10000 < ("x" : String).length) ∧
    ((Record.mk none none none none none none [] 0 ("t") ("FAIL")).status = ("FAIL") ↔
      ¬ 10000 < ("x" : String).length) :=
  claim_C1 pjNone ("t") ("x") (Record.mk none none none none none none [] 0 ("t") ("FAIL"))
    (by rfl)

/-- C6: the index page's displayed total equals the length of the record
list, pass count plus fail count equals the total, and the displayed total
time is the sum of all records' total durations converted to minutes. -/
theorem claim_C6 (tests : List Record) :
    indexTotal tests = tests.length ∧
    indexPassed tests + indexFailed tests = indexTotal tests ∧
    indexTotalMinutes tests = (tests.map Record.total_duration).sum / 60 := by
  refine ⟨rfl, ?_, rfl⟩
  have h1 : indexPassed tests ≤ indexTotal tests := List.countP_le_length _
  unfold indexFailed
  omega

/-- C9: a step's status badge has exactly two display states; the success
state is rendered precisely when the raw status token equals `"SUCCESS"`;
the rendered duration always carries exactly one decimal digit. -/
theorem claim_C9 (st : Step) :
    ((status_badge st.status, status_text st.status) =
        ((("badge-success") : String), ("הצלחה")) ∨
      (status_badge st.status, status_text st.status) =
        ((("badge-danger") : String), ("כשלון"))) ∧
    ((status_badge st.status, status_text st.status) =
        ((("badge-success") : String), ("הצלחה")) ↔ st.status = ("SUCCESS")) ∧
    oneDecimal (formatFix1 st.duration) := by
  refine ⟨?_, ?_, formatFix1_oneDecimal st.duration⟩
  · by_cases h : st.status = ("SUCCESS")
    · left; simp [status_badge, status_text, h]
    · right; simp [status_badge, status_text, beq_iff_eq, h]
  · by_cases h : st.status = ("SUCCESS")
    · simp [status_badge, status_text, h]
    · simp only [status_badge, status_text, beq_iff_eq, if_neg h]
      constructor
      · intro hp
        exact absurd (congrArg Prod.fst hp) (by decide)
      · intro hs
        exact absurd hs h

/-- C10: when the final-output field is unset or empty the detail page
shows a fixed non-empty placeholder paragraph; the verbatim `<pre>`
fallback is used only for a non-empty field whose Markdown rendering
raises; a successful rendering is shown as produced. -/
theorem claim_C10 (mdR : String → Option String) (t : Record) :
    ((t.final_output = none ∨ t.final_output = some ("")) →
      finalOutputHtml mdR t = ("<p>לא נמצא פלט סופי</p>")) ∧
    ((("<p>לא נמצא פלט סופי</p>") : String) ≠ ("")) ∧
    (∀ s, t.final_output = some s → s ≠ ("") → mdR s = none →
      finalOutputHtml mdR t = ("<pre>") ++ s ++ ("</pre>")) ∧
    (∀ s h, t.final_output = some s → s ≠ ("") → mdR s = some h →
      finalOutputHtml mdR t = h) := by
  refine ⟨?_, by decide, ?_, ?_⟩
  · rintro (hf | hf) <;> simp [finalOutputHtml, hf]
  · intro s hs hne hmd
    simp [finalOutputHtml, hs, hmd, bne_iff_ne, hne]
  · intro s h hs hne hmd
    simp [finalOutputHtml, hs, hmd, bne_iff_ne, hne]

/-- Witness for C10 at a record with no final output. -/
theorem claim_C10_witness :
    finalOutputHtml mdNone (Record.mk none none none none none none [] 0 ("") ("")) =
      ("<p>לא נמצא פלט סופי</p>") :=
  (claim_C10 mdNone (Record.mk none none none none none none [] 0 ("") (""))).1 (Or.inl rfl)

theorem pyStrip_noEdgeWS (s : String) : noEdgeWS (pyStrip s) :=
  ⟨fun c h => (pyStripL_noWS s.data).1 c h, fun c h => (pyStripL_noWS s.data).2 c h⟩

/-- C2: the extracted Record's total duration equals the arithmetic sum of
its steps' durations (0 for the empty list), and the Steps sequence is the
in-order image of the document-order match sequence (whose spans are
ordered and non-overlapping). -/
theorem claim_C2 (pj : String → Option ActivityDetails) (md : String)
    (r : Record) (h : extract_test_info pj md = .ok r) :
    r.total_duration = (r.steps.map Step.duration).sum ∧
    (r.steps = [] → r.total_duration = 0) ∧
    List.Forall₂ (fun m st => toStepE m = .ok st) (scanSteps md.data) r.steps ∧
    List.Chain' (fun a b => a.stop ≤ b.start) (scanSteps md.data) := by
  obtain ⟨hm, htd, -, -, -⟩ := extract_fields h
  have hsum : r.total_duration = (r.steps.map Step.duration).sum := by
    rw [htd]
    by_cases he : r.steps.isEmpty
    · rw [if_pos he]
      rw [List.isEmpty_iff.mp he]
      simp
    · rw [if_neg he]
  refine ⟨hsum, ?_, mapME_ok hm, (scanSteps_sound md.data).1⟩
  intro hnil
  rw [hsum, hnil]
  simp

/-- Witness for C2 at an input with two step entries (1.5s and 2.5s). -/
theorem claim_C2_witness :
    (extractedRec
        ("STEP: A\nDuration: 1.5s\nResult: SUCCESS\nSTEP: B\nDuration: 2.5s\nResult: SUCCESS")).total_duration =
      ((extractedRec
        ("STEP: A\nDuration: 1.5s\nResult: SUCCESS\nSTEP: B\nDuration: 2.5s\nResult: SUCCESS")).steps.map
          Step.duration).sum :=
  (claim_C2 pjNone
    ("STEP: A\nDuration: 1.5s\nResult: SUCCESS\nSTEP: B\nDuration: 2.5s\nResult: SUCCESS")
    (extractedRec
      ("STEP: A\nDuration: 1.5s\nResult: SUCCESS\nSTEP: B\nDuration: 2.5s\nResult: SUCCESS"))
    (by rfl)).1

/-- C3 (divergence witness): on an input whose step entry carries the
duration token `"."` — matched by `[\d.]+` but rejected by `float`, which
raises `ValueError` — the extractor propagates the exception to the caller
instead of returning a Record, whatever the JSON oracle does. -/
theorem claim_C3 (pj : String → Option ActivityDetails) :
    extract_test_info pj ("STEP: A\nDuration: .s\nResult: OK") = .error ("ValueError") := by
  rfl

/-- C5 (amended): each match found by the left-to-right non-overlapping
scan — which resumes after the end of the previous match — yields exactly
one Step, in document order, each match being a genuine occurrence of the
three-part pattern at its start index, with consecutive spans ordered and
disjoint. -/
theorem claim_C5 (pj : String → Option ActivityDetails) (md : String)
    (r : Record) (h : extract_test_info pj md = .ok r) :
    r.steps.length = (scanSteps md.data).length ∧
    List.Chain' (fun a b => a.stop ≤ b.start) (scanSteps md.data) ∧
    (∀ m ∈ scanSteps md.data, matchStepAt md.data m.start = some m ∧ m.start < m.stop) ∧
    List.Forall₂ (fun m st => toStepE m = .ok st) (scanSteps md.data) r.steps := by
  obtain ⟨hm, -, -, -, -⟩ := extract_fields h
  have hf := mapME_ok hm
  exact ⟨(List.Forall₂.length_eq hf).symm, (scanSteps_sound md.data).1,
    (scanSteps_sound md.data).2, hf⟩

/-- Counterexample for C5 as stated: in
`"STEP: A\nSTEP: B\nDuration: 1.5s Result: OK"` the three-part pattern
occurs at two indices (0 and 8, their spans overlapping), yet the
extractor captures exactly one Step, because the scan resumes after the
end of the first match and the second occurrence starts inside its span. -/
theorem claim_C5_counterexample :
    (List.range (("STEP: A\nSTEP: B\nDuration: 1.5s Result: OK").data.length)).countP
        (fun i =>
          (matchStepAt (("STEP: A\nSTEP: B\nDuration: 1.5s Result: OK").data) i).isSome) = 2 ∧
    extract_test_info pjNone ("STEP: A\nSTEP: B\nDuration: 1.5s Result: OK") =
      .ok (extractedRec ("STEP: A\nSTEP: B\nDuration: 1.5s Result: OK")) ∧
    (extractedRec ("STEP: A\nSTEP: B\nDuration: 1.5s Result: OK")).steps.length = 1 := by
  refine ⟨?_, rfl, rfl⟩
  decide

/-- Witness for C5 (amended) at an input with two step entries. -/
theorem claim_C5_witness :
    (extractedRec
        ("STEP: A\nDuration: 1.5s\nResult: SUCCESS\nSTEP: B\nDuration: 2.5s\nResult: SUCCESS")).steps.length =
      (scanSteps
        (("STEP: A\nDuration: 1.5s\nResult: SUCCESS\nSTEP: B\nDuration: 2.5s\nResult: SUCCESS").data)).length :=
  (claim_C5 pjNone
    ("STEP: A\nDuration: 1.5s\nResult: SUCCESS\nSTEP: B\nDuration: 2.5s\nResult: SUCCESS")
    (extractedRec
      ("STEP: A\nDuration: 1.5s\nResult: SUCCESS\nSTEP: B\nDuration: 2.5s\nResult: SUCCESS"))
    (by rfl)).1

/-- C7: the Record's identifier is the token captured at the first valid
title occurrence, and its label is the lookup-table value when the
identifier is a key of the table, else the identifier itself. -/
theorem claim_C7 (pj : String → Option ActivityDetails) (md : String)
    (r : Record) (n : String) (h : extract_test_info pj md = .ok r)
    (hn : r.name = some n) :
    (∃ nl, searchTitle md.data = some nl ∧ n = String.mk nl) ∧
    r.name_heb = some (tableGet TEST_NAMES_HEB n n) ∧
    (∀ v, TEST_NAMES_HEB.find? (fun p => p.1 == n) = some v → r.name_heb = some v.2) ∧
    (TEST_NAMES_HEB.find? (fun p => p.1 == n) = none → r.name_heb = some n) := by
  obtain ⟨-, -, hname, hheb, -⟩ := extract_fields h
  rw [hname] at hn
  cases hst : searchTitle md.data with
  | none => rw [hst] at hn; cases hn
  | some nl =>
    rw [hst] at hn
    simp only [Option.map_some'] at hn
    cases hn
    rw [hst] at hheb
    simp only [Option.map_some'] at hheb
    refine ⟨⟨nl, rfl, rfl⟩, hheb, ?_, ?_⟩
    · intro v hv
      rw [hheb]
      have hg : tableGet TEST_NAMES_HEB (String.mk nl) (String.mk nl) = v.2 := by
        unfold tableGet
        rw [hv]
      rw [hg]
    · intro hv
      rw [hheb]
      have hg : tableGet TEST_NAMES_HEB (String.mk nl) (String.mk nl) = String.mk nl := by
        unfold tableGet
        rw [hv]
      rw [hg]

/-- Witness for C7 at a title whose identifier is a key of the table. -/
theorem claim_C7_witness :
    (∃ nl, searchTitle (("# E2E Test Report: Kibud_Av_VaEm\n").data) = some nl ∧
      ("Kibud_Av_VaEm" : String) = String.mk nl) ∧
    (Record.mk (some ("Kibud_Av_VaEm")) (some ("כיבוד אב ואם")) none none none none
        [] 0 ("") ("")).name_heb =
      some (tableGet TEST_NAMES_HEB ("Kibud_Av_VaEm") ("Kibud_Av_VaEm")) ∧
    (∀ v, TEST_NAMES_HEB.find? (fun p => p.1 == ("Kibud_Av_VaEm" : String)) = some v →
      (Record.mk (some ("Kibud_Av_VaEm")) (some ("כיבוד אב ואם")) none none none none
        [] 0 ("") ("")).name_heb = some v.2) ∧
    (TEST_NAMES_HEB.find? (fun p => p.1 == ("Kibud_Av_VaEm" : String)) = none →
      (Record.mk (some ("Kibud_Av_VaEm")) (some ("כיבוד אב ואם")) none none none none
        [] 0 ("") ("")).name_heb = some ("Kibud_Av_VaEm")) :=
  claim_C7 pjNone ("# E2E Test Report: Kibud_Av_VaEm\n")
    (Record.mk (some ("Kibud_Av_VaEm")) (some ("כיבוד אב ואם")) none none none none
      [] 0 ("") ("")) ("Kibud_Av_VaEm") (by rfl) (by rfl)

/-- C8: the final-output field preferentially holds the stripped content
of the fenced block after the heading; when that shape is absent it holds
the stripped fallback span (text up to the next `\n## ` heading or the end
of input); when neither matches it is unset; and any value it holds has no
leading or trailing whitespace. -/
theorem claim_C8 (pj : String → Option ActivityDetails) (md : String)
    (r : Record) (h : extract_test_info pj md = .ok r) :
    (∀ c, searchFenced md.data = some c →
      r.final_output = some (pyStrip (String.mk c))) ∧
    (searchFenced md.data = none → ∀ c, searchFallback md.data = some c →
      r.final_output = some (pyStrip (String.mk c))) ∧
    (searchFenced md.data = none → searchFallback md.data = none →
      r.final_output = none) ∧
    (∀ t, r.final_output = some t → noEdgeWS t) := by
  obtain ⟨-, -, -, -, hfo⟩ := extract_fields h
  refine ⟨?_, ?_, ?_, ?_⟩
  · intro c hc
    rw [hfo]
    unfold finalOutput
    rw [hc]
  · intro hn c hc
    rw [hfo]
    unfold finalOutput
    rw [hn, hc]
    rfl
  · intro hn1 hn2
    rw [hfo]
    unfold finalOutput
    rw [hn1, hn2]
    rfl
  · intro t ht
    rw [hfo] at ht
    unfold finalOutput at ht
    cases hc : searchFenced md.data with
    | some c =>
      rw [hc] at ht
      cases ht
      exact pyStrip_noEdgeWS _
    | none =>
      rw [hc] at ht
      cases hcb : searchFallback md.data with
      | none => rw [hcb] at ht; cases ht
      | some c =>
        rw [hcb] at ht
        simp only [Option.map_some'] at ht
        cases ht
        exact pyStrip_noEdgeWS _

/-- Witness for C8 at a fenced final-output block. -/
theorem claim_C8_witness :
    (Record.mk none none none none none (some ("Hello")) [] 0 ("") ("")).final_output =
      some (pyStrip ("Hello\n")) :=
  (claim_C8 pjNone ("## Final Output\n\n\x60\x60\x60markdown\nHello\n\x60\x60\x60")
    (Record.mk none none none none none (some ("Hello")) [] 0 ("") (""))
    (by rfl)).1 (("Hello\n").data) (by rfl)

theorem HTML_TEMPLATE_date_inj {t c d d' : String}
    (h : HTML_TEMPLATE t c d = HTML_TEMPLATE t c d') : d = d' := by
  unfold HTML_TEMPLATE at h
  have h2 := congrArg String.data h
  simp only [String.data_append, List.append_assoc] at h2
  have h3 := List.append_cancel_left h2
  have h4 := List.append_cancel_left h3
  have h5 := List.append_cancel_left h4
  have h6 := List.append_cancel_left h5
  have h7 := List.append_cancel_left h6
  have h8 := List.append_cancel_right h7
  exact String.ext h8

/-- Counterexample for C4 as stated: the generated pages are not functions
of the input files alone — the same empty input run on two different dates
produces different index pages, because the footer embeds
`datetime.now().strftime('%d/%m/%Y')`. -/
theorem claim_C4_counterexample :
    generate_index_html [] ("01/01/2020") ≠ generate_index_html [] ("02/01/2020") := by
  intro h
  exact absurd (HTML_TEMPLATE_date_inj h) (by decide)

/-- C4 (amended): the pipeline is a deterministic function of the input
files and the generation date (plus the library oracles): two runs with
identical inputs and the same current date produce byte-identical detail
pages and index page. -/
theorem claim_C4 (pj : String → Option ActivityDetails)
    (mdR : String → Option String) (files files' : List (String × String))
    (d d' : String) (hf : files = files') (hd : d = d') :
    runPipeline pj mdR files d = runPipeline pj mdR files' d' := by
  rw [hf, hd]

/-- Witness for C4 (amended) at a concrete run. -/
theorem claim_C4_witness :
    runPipeline pjNone mdNone [] ("01/01/2020") =
      runPipeline pjNone mdNone [] ("01/01/2020") :=
  claim_C4 pjNone mdNone [] [] ("01/01/2020") ("01/01/2020") rfl rfl

end Agadah
